import Mathlib

/-!
Shallow embedding of the crystara-hyperdriver worker (src/src/index.ts).

The worker is a router over an external Postgres database.  We embed:
  * the database as lists of rows (one list per table used by the claims);
  * each SQL statement as a pure function over those lists
    (ORDER BY key DESC = sort by the key descending, LIMIT n = take n,
    WHERE = filter, INSERT/UPDATE = list update, EXISTS = membership);
  * platform-provided effects as explicit parameters: the stream of
    Math.random suffixes is a list of strings, NOW() is a natural number,
    JSON.parse of the preferences parameter is an oracle function;
  * a Response as a status code plus a shape-level JSON body
    (the Body inductive records the top-level keys each handler emits);
  * divergence of the unbounded slug-retry loop as the Option value none
    (the suffix stream ran out while every candidate collided).

Routes modelled (faithfully translated from handleRoute and the handlers
they call): /api/accounts, /api/account-balances, /api/lootbox,
/api/token-transactions, /api/token-balances, /api/private/account/upsert,
/api/private/lootbox-stats/create, and the 404 default, together with the
fetch wrapper (OPTIONS preflight, private-prefix api-key gate).  Columns
that a handler merely projects through a LEFT JOIN (such as tokenName)
are omitted from the row models because they change neither row counts
nor row order; an INNER JOIN that can drop rows is kept as a filter.
-/

namespace Crystara

/-- A row of the Account table (only the columns the claims touch). -/
structure AccountRow where
  address : String
  createdAt : Nat
  deriving Repr, DecidableEq

/-- A row of the TokenBalance table. -/
structure TokenBalance where
  accountAddress : String
  tokenId : Nat
  balance : Int
  lastUpdated : Nat
  deriving Repr, DecidableEq

/-- A row of the TokenTransaction table. -/
structure TokenTransaction where
  id : Nat
  createdAt : Nat
  deriving Repr, DecidableEq

/-- A row of the Lootbox table. -/
structure LootboxRow where
  id : Nat
  creatorAddress : String
  collectionName : String
  createdAt : Nat
  deriving Repr, DecidableEq

/-- A row of the OFFChain_Account table. -/
structure OffAccount where
  id : Nat
  walletAddress : String
  email : Option String
  username : Option String
  preferences : Option String
  lastLoginAt : Nat
  createdAt : Nat
  updatedAt : Nat
  deriving Repr, DecidableEq

/-- A row of the OFFChain_LootboxStats table. -/
structure StatsRow where
  id : Nat
  lootboxId : Nat
  url : String
  rarityColorMap : Option (List (String × String))
  updatedAt : Nat
  createdAt : Nat
  deriving Repr, DecidableEq

/-- The database state: one list of rows per table used by the claims. -/
structure DB where
  accounts : List AccountRow
  lootboxes : List LootboxRow
  tokenTransactions : List TokenTransaction
  tokenBalances : List TokenBalance
  offchainAccounts : List OffAccount
  offchainStats : List StatsRow
  deriving Repr, DecidableEq

/-- The empty database. -/
def DB.empty : DB := ⟨[], [], [], [], [], []⟩

/-- Shape-level JSON body of a response: one constructor per top-level
key layout that the modelled handlers emit. -/
inductive Body where
  | empty
  | err (msg : String)
  | errCodeDetails (msg code details : String)
  | msg (m : String)
  | accounts (rows : List AccountRow)
  | balances (rows : List TokenBalance)
  | tokenBalances (rows : List TokenBalance) (totalCount : Nat)
  | transactions (rows : List TokenTransaction)
  | lootboxOpt (l : Option LootboxRow)
  | account (a : OffAccount) (message : String)
  | statsCreated (s : StatsRow) (urlModified : Bool)
  deriving Repr, DecidableEq

/-- True when the top-level message key of the body is the error key. -/
def Body.topKeyIsError : Body → Bool
  | .err _ => true
  | .errCodeDetails _ _ _ => true
  | _ => false

/-- An HTTP response: status code plus shape-level JSON body. -/
structure Response where
  status : Nat
  body : Body
  deriving Repr, DecidableEq

/-- Result of a handler: the response, the database after the handler,
and whether at least one SQL statement was issued. -/
structure Out where
  resp : Response
  db : DB
  sqlIssued : Bool
  deriving Repr, DecidableEq

/-- Platform-provided effects, passed explicitly: the stream of random
suffixes drawn by Math.random().toString().substring(2, 11), the value of
NOW() and new Date(), and the JSON.parse-then-restringify oracle for the
preferences parameter (none models a parse failure or a non-object). -/
structure Platform where
  suffixes : List String
  now : Nat
  parsePrefs : String → Option String

/-- Is the first character list a prefix of the second? -/
def leadingChars : List Char → List Char → Bool
  | [], _ => true
  | _ :: _, [] => false
  | c :: cs, d :: ds => c == d && leadingChars cs ds

/-- Model of the JS String.prototype.startsWith used on the request path. -/
def strStartsWith (s pre : String) : Bool := leadingChars pre.data s.data

/-- Model of JS String.prototype.trim: strip leading and trailing
whitespace (the inputs of interest are ASCII). -/
def strTrim (s : String) : String :=
  ⟨(((s.data.dropWhile Char.isWhitespace).reverse).dropWhile Char.isWhitespace).reverse⟩

/-- Model of JS String.prototype.toLowerCase on ASCII strings. -/
def strLower (s : String) : String := ⟨s.data.map Char.toLower⟩

/-- ORDER BY key DESC: sort the rows so the key is non-increasing. -/
def orderByDesc {α : Type} (key : α → Nat) (rows : List α) : List α :=
  List.insertionSort (fun a b => key b ≤ key a) rows

/-- SELECT * FROM Account ORDER BY createdAt DESC LIMIT 20. -/
def getAccounts (db : DB) : Out :=
  ⟨⟨200, .accounts ((orderByDesc (fun a => a.createdAt) db.accounts).take 20)⟩, db, true⟩

/-- SELECT tb.*, t.tokenName FROM TokenBalance tb LEFT JOIN Token t
WHERE tb.accountAddress = address ORDER BY tb.lastUpdated DESC (no LIMIT). -/
def getAccountBalances (db : DB) (address : String) : Out :=
  ⟨⟨200, .balances (orderByDesc (fun tb => tb.lastUpdated)
      (db.tokenBalances.filter (fun tb => tb.accountAddress == address)))⟩, db, true⟩

/-- SELECT * FROM TokenTransaction ORDER BY createdAt DESC LIMIT 50. -/
def getTokenTransactions (db : DB) : Out :=
  ⟨⟨200, .transactions ((orderByDesc (fun t => t.createdAt) db.tokenTransactions).take 50)⟩, db, true⟩

/-- Is the address filter of getTokenBalances truthy (non-null and non-empty)? -/
def addrTruthy : Option String → Bool
  | none => false
  | some a => a != ""

/-- getTokenBalances: INNER JOIN Account keeps only balances whose account
row exists; the address clause and the LIMIT 20 clause are each emitted
conditionally on the truthiness of the address filter, the balance > 0
clause on the boolean flag; ORDER BY lastUpdated DESC. -/
def getTokenBalances (db : DB) (address : Option String) (gtz : Bool) : Out :=
  let joined := db.tokenBalances.filter
    (fun tb => db.accounts.any (fun a => a.address == tb.accountAddress))
  let f1 := if addrTruthy address then
      joined.filter (fun tb => tb.accountAddress == address.getD "") else joined
  let f2 := if gtz then f1.filter (fun tb => 0 < tb.balance) else f1
  let sorted := orderByDesc (fun tb => tb.lastUpdated) f2
  let rows := if addrTruthy address then sorted else sorted.take 20
  ⟨⟨200, .tokenBalances rows rows.length⟩, db, true⟩

/-- SELECT ... FROM Lootbox l LEFT JOIN LootboxAnalytics WHERE
l.creatorAddress = creator AND l.collectionName = collection LIMIT 1;
the handler returns the object with key lootbox holding row zero, which
is undefined when no row matched, with the default status 200. -/
def getLootboxByCreatorAndCollection (db : DB) (creator collection : String) : Out :=
  let rows := db.lootboxes.filter
    (fun l => l.creatorAddress == creator && l.collectionName == collection)
  ⟨⟨200, .lootboxOpt rows.head?⟩, db, true⟩

/-- generateUniqueUrl: return the base url if it is unused; otherwise draw
a random suffix, return base-suffix if that is unused, and otherwise recurse
on the base url.  The suffix stream is the explicit list; when it runs out
while every candidate collides the model returns none, standing for the
divergence of the unbounded retry loop. -/
def generateUniqueUrl (used : String → Bool) : List String → String → Option String
  | [], base => if used base then none else some base
  | s :: rest, base =>
    if used base then
      let newUrl := base ++ "-" ++ s
      if used newUrl then generateUniqueUrl used rest base else some newUrl
    else some base

/-- JSON body of POST /api/private/lootbox-stats/create; rarityColors is
an Option because the field may be absent from the parsed body. -/
structure CreateBody where
  lootboxId : Nat
  url : String
  rarityColors : Option (List (String × String))
  creatorAddress : String
  collectionName : String
  deriving Repr, DecidableEq

/-- createOffchainLootboxStats: verify lootbox ownership (400 on failure),
check for an existing stats row for the lootboxId (409 if present, leaving
the database untouched), then generate a unique url and insert the row.
The result is none only when the slug generation diverges. -/
def createOffchainLootboxStats (p : Platform) (db : DB) (data : CreateBody) : Option Out :=
  match db.lootboxes.find? (fun l =>
      l.id == data.lootboxId && l.creatorAddress == data.creatorAddress &&
      l.collectionName == data.collectionName) with
  | none => some ⟨⟨400, .err "Invalid lootbox ID or ownership"⟩, db, true⟩
  | some _ =>
    match db.offchainStats.find? (fun s => s.lootboxId == data.lootboxId) with
    | some _ => some ⟨⟨409, .msg "Offchain stats already exist"⟩, db, true⟩
    | none =>
      match generateUniqueUrl (fun u => db.offchainStats.any (fun s => s.url == u))
          p.suffixes data.url with
      | none => none
      | some uniqueUrl =>
        let row : StatsRow :=
          ⟨db.offchainStats.length + 1, data.lootboxId, uniqueUrl,
           data.rarityColors, p.now, p.now⟩
        some ⟨⟨200, .statsCreated row (uniqueUrl != data.url)⟩,
          { db with offchainStats := db.offchainStats ++ [row] }, true⟩

/-- Validated input of upsertOffChainAccount; preferences holds the
sanitized JSON string (JSON.stringify of the parsed object) or none. -/
structure UpsertData where
  walletAddress : String
  email : Option String
  username : Option String
  preferences : Option String
  lastLoginAt : Nat
  deriving Repr, DecidableEq

/-- upsertOffChainAccount: an empty wallet address throws, which the local
catch turns into the generic 500 envelope; otherwise INSERT ... ON CONFLICT
(walletAddress) DO UPDATE overwrites email, username, preferences,
lastLoginAt and updatedAt of the existing row, or appends a fresh row, and
returns the resulting row with the success message. -/
def upsertOffChainAccount (db : DB) (data : UpsertData) (now : Nat) : Out :=
  if data.walletAddress = "" then
    ⟨⟨500, .errCodeDetails "An error occurred while processing your request"
        "INTERNAL_ERROR" "Invalid wallet address"⟩, db, false⟩
  else
    match db.offchainAccounts.find? (fun r => r.walletAddress == data.walletAddress) with
    | some r =>
      let updated : OffAccount :=
        { r with email := data.email, username := data.username,
                 preferences := data.preferences, lastLoginAt := data.lastLoginAt,
                 updatedAt := now }
      ⟨⟨200, .account updated "Account updated successfully"⟩,
       { db with offchainAccounts := (db.offchainAccounts.map
           (fun x => if x.walletAddress == data.walletAddress then updated else x)) }, true⟩
    | none =>
      let fresh : OffAccount :=
        ⟨db.offchainAccounts.length + 1, data.walletAddress, data.email,
         data.username, data.preferences, data.lastLoginAt, now, now⟩
      ⟨⟨200, .account fresh "Account updated successfully"⟩,
       { db with offchainAccounts := db.offchainAccounts ++ [fresh] }, true⟩

/-- The username regexp of the upsert route: one or more characters drawn
from letters, digits, underscore and hyphen. -/
def usernameAllowed (s : String) : Bool :=
  s != "" && s.all (fun c => c.isAlphanum || c == '_' || c == '-')

/-- An incoming request: method, path, the x-api-key header, the query
parameters, and the JSON body of the create route when one parses. -/
structure Request where
  method : String
  path : String
  apiKey : Option String
  params : String → Option String
  body : Option CreateBody

/-- The route case for /api/private/account/upsert: trim and lowercase the
parameters, then validate in order: missing wallet address 400; any
non-empty email 400 (the guard in the source rejects every provided email);
username length and character checks; preferences JSON parse; finally
delegate to upsertOffChainAccount.  Absent or all-whitespace parameters
behave as empty strings, mirroring JS falsiness of the trimmed values. -/
def accountUpsertRoute (p : Platform) (req : Request) (db : DB) : Option Out :=
  let walletAddress := ((req.params "walletAddress").map strTrim).getD ""
  let email := ((req.params "email").map (fun e => strLower (strTrim e))).getD ""
  let username := ((req.params "username").map strTrim).getD ""
  if walletAddress = "" then
    some ⟨⟨400, .err "Invalid wallet address format"⟩, db, false⟩
  else if email ≠ "" then
    some ⟨⟨400, .err "Invalid email format"⟩, db, false⟩
  else if username ≠ "" ∧ (username.length < 3 ∨ 30 < username.length) then
    some ⟨⟨400, .err "Username must be between 3 and 30 characters"⟩, db, false⟩
  else if username ≠ "" ∧ usernameAllowed username = false then
    some ⟨⟨400, .err "Username can only contain letters, numbers, underscores, and hyphens"⟩,
      db, false⟩
  else
    let emailVal := if email = "" then none else some email
    let usernameVal := if username = "" then none else some username
    match req.params "preferences" with
    | some prefStr =>
      match p.parsePrefs prefStr with
      | none => some ⟨⟨400, .err "Invalid preferences format"⟩, db, false⟩
      | some sanitized =>
        some (upsertOffChainAccount db
          ⟨walletAddress, emailVal, usernameVal, some sanitized, p.now⟩ p.now)
    | none =>
      some (upsertOffChainAccount db
        ⟨walletAddress, emailVal, usernameVal, none, p.now⟩ p.now)

/-- The route case for /api/private/lootbox-stats/create: a body that does
not parse makes request.json() throw, surfacing as the 500 catch-all of
fetch (message modelled by a fixed string); a falsy lootboxId, url,
creatorAddress or collectionName yields 400 Missing required fields;
rarityColors is not checked; otherwise delegate to
createOffchainLootboxStats. -/
def lootboxStatsCreateRoute (p : Platform) (req : Request) (db : DB) : Option Out :=
  match req.body with
  | none => some ⟨⟨500, .err "Invalid JSON body"⟩, db, false⟩
  | some b =>
    if b.lootboxId = 0 ∨ b.url = "" ∨ b.creatorAddress = "" ∨ b.collectionName = "" then
      some ⟨⟨400, .err "Missing required fields"⟩, db, false⟩
    else
      createOffchainLootboxStats p db b

/-- handleRoute: exact string match of the path against the route table;
every modelled case is a faithful translation of the corresponding switch
case of the source, and unmatched paths yield 404 with the error body. -/
def handleRoute (p : Platform) (req : Request) (db : DB) : Option Out :=
  match req.path with
  | "/api/accounts" => some (getAccounts db)
  | "/api/account-balances" =>
    if (req.params "address").getD "" = "" then
      some ⟨⟨400, .err "Address required"⟩, db, false⟩
    else some (getAccountBalances db ((req.params "address").getD ""))
  | "/api/lootbox" =>
    if (req.params "creator").getD "" = "" ∨ (req.params "collection").getD "" = "" then
      some ⟨⟨400, .err "Creator address and collection name required"⟩, db, false⟩
    else some (getLootboxByCreatorAndCollection db ((req.params "creator").getD "")
      ((req.params "collection").getD ""))
  | "/api/token-transactions" => some (getTokenTransactions db)
  | "/api/token-balances" =>
    let gtz := req.params "greaterThanZeroBalance" == some "true"
    some (getTokenBalances db (req.params "address") gtz)
  | "/api/private/account/upsert" => accountUpsertRoute p req db
  | "/api/private/lootbox-stats/create" => lootboxStatsCreateRoute p req db
  | _ => some ⟨⟨404, .err "Not found"⟩, db, false⟩

/-- validateApiKey: the x-api-key header must be present and a member of
the configured key list (JSON.parse of VALID_API_KEYS). -/
def validateApiKey (apiKey : Option String) (validKeys : List String) : Bool :=
  match apiKey with
  | none => false
  | some k => validKeys.contains k

/-- Result of the fetch entry point: the response, the database after the
request, whether a database connection was opened, and whether any SQL
statement was issued. -/
structure FetchOut where
  resp : Response
  db : DB
  opened : Bool
  sqlIssued : Bool
  deriving Repr, DecidableEq

/-- fetch: OPTIONS short-circuits to the CORS preflight response; a
private-prefixed path with a missing or invalid api key yields 401 before
the postgres connection is created; otherwise the connection is opened and
handleRoute dispatches.  CORS header merging is not modelled. -/
def fetchService (p : Platform) (validKeys : List String) (req : Request) (db : DB) :
    Option FetchOut :=
  if req.method = "OPTIONS" then
    some ⟨⟨200, .empty⟩, db, false, false⟩
  else if strStartsWith req.path "/api/private/" ∧ validateApiKey req.apiKey validKeys = false then
    some ⟨⟨401, .err "Unauthorized - Invalid API key"⟩, db, false, false⟩
  else
    (handleRoute p req db).map (fun o => ⟨o.resp, o.db, true, o.sqlIssued⟩)

/-! Helper lemmas about the SQL ordering model. -/

/-- The descending sort really is sorted: the key is non-increasing. -/
theorem sorted_orderByDesc {α : Type} (key : α → Nat) (rows : List α) :
    List.Sorted (fun a b => key b ≤ key a) (orderByDesc key rows) := by
  haveI : IsTotal α (fun a b => key b ≤ key a) := ⟨fun a b => Nat.le_total (key b) (key a)⟩
  haveI : IsTrans α (fun a b => key b ≤ key a) := ⟨fun a b c h1 h2 => Nat.le_trans h2 h1⟩
  exact List.sorted_insertionSort _ rows

/-- A prefix of the descending sort is still sorted. -/
theorem sorted_orderByDesc_take {α : Type} (key : α → Nat) (rows : List α) (n : Nat) :
    List.Sorted (fun a b => key b ≤ key a) ((orderByDesc key rows).take n) :=
  List.Pairwise.sublist (List.take_sublist n _) (sorted_orderByDesc key rows)

/-- Appending a dash and a suffix never returns the base string. -/
theorem append_suffix_ne (base s : String) : base ++ "-" ++ s ≠ base := by
  intro h
  have hlen := congrArg String.length h
  have h1 : ("-" : String).length = 1 := rfl
  rw [String.length_append, String.length_append, h1] at hlen
  omega

/-- When the base url is unused, the generator returns it unchanged. -/
theorem genUrl_base_free (used : String → Bool) (ss : List String) (base : String)
    (h : used base = false) : generateUniqueUrl used ss base = some base := by
  cases ss <;> simp [generateUniqueUrl, h]

/-- When the base url is taken, any returned url is a fresh one distinct
from the base. -/
theorem genUrl_taken {used : String → Bool} {base u : String} :
    ∀ {ss : List String}, generateUniqueUrl used ss base = some u →
      used base = true → u ≠ base ∧ used u = false := by
  intro ss
  induction ss with
  | nil => intro h hb; simp [generateUniqueUrl, hb] at h
  | cons s rest ih =>
    intro h hb
    rw [generateUniqueUrl] at h
    rw [if_pos hb] at h
    by_cases hc : used (base ++ "-" ++ s) = true
    · rw [if_pos hc] at h
      exact ih h hb
    · rw [if_neg hc] at h
      have hu : base ++ "-" ++ s = u := Option.some.inj h
      refine ⟨hu ▸ append_suffix_ne base s, ?_⟩
      rw [← hu]
      exact Bool.not_eq_true _ ▸ (eq_false_of_ne_true hc)

/-- When the base url is taken and every drawn candidate collides, the
generator consumes the whole suffix stream and diverges (none). -/
theorem genUrl_all_taken {used : String → Bool} {base : String} (hb : used base = true) :
    ∀ ss : List String, (∀ s ∈ ss, used (base ++ "-" ++ s) = true) →
      generateUniqueUrl used ss base = none := by
  intro ss
  induction ss with
  | nil => intro _; simp [generateUniqueUrl, hb]
  | cons s rest ih =>
    intro hall
    rw [generateUniqueUrl, if_pos hb, if_pos (hall s (List.mem_cons_self s rest))]
    exact ih (fun t ht => hall t (List.mem_cons_of_mem s ht))

/-- When some drawn candidate is unused, the generator terminates with a
result. -/
theorem genUrl_some_free {used : String → Bool} {base : String} :
    ∀ ss : List String, (∃ s ∈ ss, used (base ++ "-" ++ s) = false) →
      (generateUniqueUrl used ss base).isSome = true := by
  intro ss
  induction ss with
  | nil => intro hex; simp at hex
  | cons s rest ih =>
    intro hex
    by_cases hb : used base = true
    · rw [generateUniqueUrl, if_pos hb]
      by_cases hc : used (base ++ "-" ++ s) = true
      · rw [if_pos hc]
        obtain ⟨t, ht, hfree⟩ := hex
        rcases List.mem_cons.mp ht with rfl | htr
        · rw [hc] at hfree; cases hfree
        · exact ih ⟨t, htr, hfree⟩
      · rw [if_neg hc]; rfl
    · rw [genUrl_base_free used _ base (eq_false_of_ne_true hb)]; rfl

/-! Concrete objects used by counterexamples and witnesses. -/

/-- A platform with one pending random suffix, NOW() = 7, and a prefs
parse oracle that always fails (never exercised by the concrete runs). -/
def p0 : Platform := ⟨["111111111"], 7, fun _ => none⟩

/-- A database holding 51 TokenBalance rows for the address a. -/
def db51 : DB :=
  { DB.empty with tokenBalances := ((List.range 51).map (fun i => ⟨"a", i, 1, i⟩)) }

/-- Length of the balances list of a response body, zero otherwise. -/
def balancesLen (o : Out) : Nat :=
  match o.resp.body with
  | .balances l => l.length
  | _ => 0

/-- C4, counterexample: the account-balances endpoint has no LIMIT clause;
on a database with 51 matching TokenBalance rows it returns all 51 rows,
exceeding both fixed limits 20 and 50, so the claimed count bound fails
for this list endpoint. -/
theorem C4_cex_account_balances_unbounded :
    balancesLen (getAccountBalances db51 "a") = 51 ∧ ¬(51 ≤ 50) := by decide

/-- C4 (amended): the fixed-limit list endpoints (accounts LIMIT 20,
token-transactions LIMIT 50, token-balances LIMIT 20 when the address
filter is not given) return at most that many rows, non-increasing in the
declared sort timestamp; the address-filtered list endpoints
(account-balances, and token-balances with an address) return their rows
non-increasing in the sort timestamp but without any count bound. -/
theorem C4_list_endpoints_limit_and_order (db : DB) (address : Option String)
    (gtz : Bool) (a : String) :
    (∃ rows, getAccounts db = ⟨⟨200, .accounts rows⟩, db, true⟩ ∧ rows.length ≤ 20 ∧
       List.Sorted (fun x y => y.createdAt ≤ x.createdAt) rows)
  ∧ (∃ rows, getTokenTransactions db = ⟨⟨200, .transactions rows⟩, db, true⟩ ∧
       rows.length ≤ 50 ∧ List.Sorted (fun x y => y.createdAt ≤ x.createdAt) rows)
  ∧ (∃ rows, getAccountBalances db a = ⟨⟨200, .balances rows⟩, db, true⟩ ∧
       List.Sorted (fun x y => y.lastUpdated ≤ x.lastUpdated) rows)
  ∧ (∃ rows, getTokenBalances db address gtz = ⟨⟨200, .tokenBalances rows rows.length⟩, db, true⟩ ∧
       List.Sorted (fun x y => y.lastUpdated ≤ x.lastUpdated) rows ∧
       (addrTruthy address = false → rows.length ≤ 20)) := by
  refine ⟨⟨_, rfl, List.length_take_le _ _, sorted_orderByDesc_take _ _ _⟩,
          ⟨_, rfl, List.length_take_le _ _, sorted_orderByDesc_take _ _ _⟩,
          ⟨_, rfl, sorted_orderByDesc _ _⟩, ⟨_, rfl, ?_, ?_⟩⟩
  · by_cases h : addrTruthy address = true
    · simp only [getTokenBalances, h, if_true]
      exact sorted_orderByDesc _ _
    · simp only [getTokenBalances, eq_false_of_ne_true h, Bool.false_eq_true, if_false]
      exact sorted_orderByDesc_take _ _ _
  · intro h
    simp only [getTokenBalances, h, Bool.false_eq_true, if_false]
    exact List.length_take_le _ _

/-- C5: when the base slug is unused the generator returns it exactly;
when it is in use, any slug the generator returns differs from the base
and was itself unused at the time it was checked. -/
theorem C5_unique_slug (used : String → Bool) (ss : List String) (base : String) :
    (used base = false → generateUniqueUrl used ss base = some base)
  ∧ (∀ u, generateUniqueUrl used ss base = some u → used base = true →
      u ≠ base ∧ used u = false) :=
  ⟨genUrl_base_free used ss base, fun _ h hb => genUrl_taken h hb⟩

/-- C5, witness: the theorem applied at a one-element used set and a
concrete suffix supply. -/
theorem C5_unique_slug_witness :
    generateUniqueUrl (fun u => u == "base") ["123"] "base" = some "base-123" ∧
    "base-123" ≠ "base" ∧ (fun u => u == "base") "base-123" = false := by
  have h := (C5_unique_slug (fun u => u == "base") ["123"] "base").2 "base-123"
    (by decide) (by decide)
  exact ⟨by decide, h.1, h.2⟩

/-- C6: the slug generator retries without any attempt bound: if every
candidate drawn from the random stream collides it never returns (modelled
by none once the stream is exhausted), and it terminates with a result
exactly under the hypothesis that some drawn candidate is unused. -/
theorem C6_unbounded_retry (used : String → Bool) (ss : List String) (base : String) :
    (used base = true → (∀ s ∈ ss, used (base ++ "-" ++ s) = true) →
      generateUniqueUrl used ss base = none)
  ∧ ((∃ s ∈ ss, used (base ++ "-" ++ s) = false) →
      (generateUniqueUrl used ss base).isSome = true) :=
  ⟨fun hb hall => genUrl_all_taken hb ss hall, genUrl_some_free ss⟩

/-- C6, witness: with an all-colliding two-suffix stream the generator
diverges, and with one free candidate it terminates. -/
theorem C6_unbounded_retry_witness :
    generateUniqueUrl (fun _ => true) ["1", "2"] "base" = none ∧
    (generateUniqueUrl (fun u => u == "base") ["123"] "base").isSome = true := by
  refine ⟨(C6_unbounded_retry (fun _ => true) ["1", "2"] "base").1 (by decide)
      (by intro s _; decide), ?_⟩
  exact (C6_unbounded_retry (fun u => u == "base") ["123"] "base").2
    ⟨"123", by decide, by decide⟩

/-- An OPTIONS preflight request to a private path, without any api key. -/
def reqOpts : Request :=
  { method := "OPTIONS", path := "/api/private/accounts", apiKey := none,
    params := fun _ => none, body := none }

/-- A GET request to a private path, without any api key. -/
def reqPrivNoKey : Request :=
  { method := "GET", path := "/api/private/accounts", apiKey := none,
    params := fun _ => none, body := none }

/-- C2, counterexample: an OPTIONS request to a private-prefixed path with
no x-api-key header is answered by the CORS preflight response with status
200, not by the claimed 401, because the preflight short-circuit runs
before the api-key check. -/
theorem C2_cex_options_preflight_bypasses_key_check :
    fetchService p0 [] reqOpts DB.empty =
      some ⟨⟨200, .empty⟩, DB.empty, false, false⟩ := by decide

/-- C2 (amended): for every request with a method other than OPTIONS whose
path begins with the private prefix, a missing header or a value outside
the key set (exactly the cases where validateApiKey is false) yields the
401 error response with no connection opened and no handler run, and a
member key lets dispatch proceed normally; an OPTIONS preflight instead
short-circuits before the key check. -/
theorem C2_private_prefix_requires_key (p : Platform) (keys : List String)
    (req : Request) (db : DB) (hm : req.method ≠ "OPTIONS")
    (hp : strStartsWith req.path "/api/private/" = true) :
    (validateApiKey req.apiKey keys = false ↔
       (req.apiKey = none ∨ ∃ k, req.apiKey = some k ∧ keys.contains k = false))
  ∧ (validateApiKey req.apiKey keys = false →
       fetchService p keys req db =
         some ⟨⟨401, .err "Unauthorized - Invalid API key"⟩, db, false, false⟩)
  ∧ (validateApiKey req.apiKey keys = true →
       fetchService p keys req db =
         ((handleRoute p req db).map (fun o => ⟨o.resp, o.db, true, o.sqlIssued⟩))) := by
  refine ⟨?_, fun hv => ?_, fun hv => ?_⟩
  · cases hk : req.apiKey with
    | none => simp [validateApiKey, hk]
    | some k => simp [validateApiKey, hk]
  · rw [fetchService, if_neg hm, if_pos ⟨hp, hv⟩]
  · have hcond : ¬(strStartsWith req.path "/api/private/" = true ∧
        validateApiKey req.apiKey keys = false) := by
      intro hc
      rw [hv] at hc
      exact absurd hc.2 (by simp)
    rw [fetchService, if_neg hm, if_neg hcond]

/-- C2, witness: the amended theorem applied to the concrete GET request
without a key against the key set containing k. -/
theorem C2_private_prefix_requires_key_witness :
    fetchService p0 ["k"] reqPrivNoKey DB.empty =
      some ⟨⟨401, .err "Unauthorized - Invalid API key"⟩, DB.empty, false, false⟩ :=
  (C2_private_prefix_requires_key p0 ["k"] reqPrivNoKey DB.empty
    (by decide) (by decide)).2.1 rfl

/-- C3: for the modelled routes that declare required query parameters,
a missing parameter (the JS falsiness check also treats an empty value as
missing) short-circuits to the 400 response with the descriptive error
message, with the database untouched and no SQL issued, while a present
non-empty parameter makes the route delegate to its handler. -/
theorem C3_required_params_short_circuit (p : Platform) (req : Request) (db : DB) :
    (req.path = "/api/account-balances" → (req.params "address").getD "" = "" →
       handleRoute p req db = some ⟨⟨400, .err "Address required"⟩, db, false⟩)
  ∧ (req.path = "/api/account-balances" → ∀ a, req.params "address" = some a → a ≠ "" →
       handleRoute p req db = some (getAccountBalances db a))
  ∧ (req.path = "/api/lootbox" →
       ((req.params "creator").getD "" = "" ∨ (req.params "collection").getD "" = "") →
       handleRoute p req db =
         some ⟨⟨400, .err "Creator address and collection name required"⟩, db, false⟩)
  ∧ (req.path = "/api/lootbox" → ∀ c col, req.params "creator" = some c → c ≠ "" →
       req.params "collection" = some col → col ≠ "" →
       handleRoute p req db = some (getLootboxByCreatorAndCollection db c col)) := by
  refine ⟨fun hp hmiss => ?_, fun hp a ha hne => ?_, fun hp hmiss => ?_,
      fun hp c col hc hcne hcol hcolne => ?_⟩
  · rw [handleRoute, hp]
    simp [hmiss]
  · rw [handleRoute, hp]
    simp [ha, hne]
  · rw [handleRoute, hp]
    rcases hmiss with h | h <;> simp [h]
  · rw [handleRoute, hp]
    simp [hc, hcne, hcol, hcolne]

/-- A GET request for account balances carrying the address parameter. -/
def reqBal : Request :=
  { method := "GET", path := "/api/account-balances", apiKey := none,
    params := fun n => if n = "address" then some "0x1" else none, body := none }

/-- A GET request for account balances without the address parameter. -/
def reqBalMissing : Request :=
  { method := "GET", path := "/api/account-balances", apiKey := none,
    params := fun _ => none, body := none }

/-- C3, witness: the theorem applied to a concrete request missing the
address parameter, and to one carrying it. -/
theorem C3_required_params_short_circuit_witness :
    handleRoute p0 reqBalMissing DB.empty =
      some ⟨⟨400, .err "Address required"⟩, DB.empty, false⟩ ∧
    handleRoute p0 reqBal DB.empty = some (getAccountBalances DB.empty "0x1") := by
  refine ⟨(C3_required_params_short_circuit p0 reqBalMissing DB.empty).1 rfl rfl, ?_⟩
  exact (C3_required_params_short_circuit p0 reqBal DB.empty).2.1 rfl "0x1" rfl (by decide)

/-- C7: when the lootbox ownership check passes and a stats row for the
lootboxId already exists, createOffchainLootboxStats answers 409 with the
conflict message and returns the database unchanged: the conflict path
performs no insert and no update, so the existing row is untouched. -/
theorem C7_duplicate_stats_conflict (p : Platform) (db : DB) (data : CreateBody)
    (hown : ∃ l ∈ db.lootboxes, l.id = data.lootboxId ∧
      l.creatorAddress = data.creatorAddress ∧ l.collectionName = data.collectionName)
    (hex : ∃ s ∈ db.offchainStats, s.lootboxId = data.lootboxId) :
    createOffchainLootboxStats p db data =
      some ⟨⟨409, .msg "Offchain stats already exist"⟩, db, true⟩ := by
  have hown2 : (db.lootboxes.find? (fun l =>
      l.id == data.lootboxId && l.creatorAddress == data.creatorAddress &&
      l.collectionName == data.collectionName)).isSome := by
    rw [List.find?_isSome]
    obtain ⟨l, hl, h1, h2, h3⟩ := hown
    exact ⟨l, hl, by simp [h1, h2, h3]⟩
  have hex2 : (db.offchainStats.find? (fun s => s.lootboxId == data.lootboxId)).isSome := by
    rw [List.find?_isSome]
    obtain ⟨s, hs, h1⟩ := hex
    exact ⟨s, hs, by simp [h1]⟩
  obtain ⟨l, hl⟩ := Option.isSome_iff_exists.mp hown2
  obtain ⟨s, hs⟩ := Option.isSome_iff_exists.mp hex2
  rw [createOffchainLootboxStats, hl, hs]

/-- A database holding one lootbox owned by creator 0xcr and the stats
row already created for it. -/
def dbC : DB := { DB.empty with
  lootboxes := [⟨5, "0xcr", "Genesis", 1⟩],
  offchainStats := [⟨1, 5, "genesis", none, 2, 2⟩] }

/-- C7, witness: the theorem applied to the concrete duplicate creation
attempt against dbC. -/
theorem C7_duplicate_stats_conflict_witness :
    createOffchainLootboxStats p0 dbC ⟨5, "genesis", none, "0xcr", "Genesis"⟩ =
      some ⟨⟨409, .msg "Offchain stats already exist"⟩, dbC, true⟩ :=
  C7_duplicate_stats_conflict p0 dbC ⟨5, "genesis", none, "0xcr", "Genesis"⟩
    ⟨⟨5, "0xcr", "Genesis", 1⟩, by decide, by decide, by decide, by decide⟩
    ⟨⟨1, 5, "genesis", none, 2, 2⟩, by decide, by decide⟩

/-- C9: a lootbox lookup by creator and collection that matches no row
returns status 200 with an absent lootbox payload (row zero of the empty
result, serialized as undefined), not a 404. -/
theorem C9_lootbox_miss_returns_200 (db : DB) (creator collection : String)
    (h : ∀ l ∈ db.lootboxes, ¬(l.creatorAddress = creator ∧ l.collectionName = collection)) :
    getLootboxByCreatorAndCollection db creator collection =
      ⟨⟨200, .lootboxOpt none⟩, db, true⟩ := by
  have hnil : db.lootboxes.filter
      (fun l => l.creatorAddress == creator && l.collectionName == collection) = [] := by
    rw [List.filter_eq_nil_iff]
    intro l hl
    simp only [Bool.and_eq_true, beq_iff_eq, not_and]
    intro h1 h2
    exact absurd ⟨h1, h2⟩ (h l hl)
  simp only [getLootboxByCreatorAndCollection, hnil, List.head?_nil]

/-- C9, witness: the theorem applied to the empty database, matching the
end-to-end example of the spec. -/
theorem C9_lootbox_miss_returns_200_witness :
    getLootboxByCreatorAndCollection DB.empty "0xabc" "Genesis" =
      ⟨⟨200, .lootboxOpt none⟩, DB.empty, true⟩ :=
  C9_lootbox_miss_returns_200 DB.empty "0xabc" "Genesis"
    (by intro l hl; exact absurd hl (List.not_mem_nil l))

/-- C10: the required-field check of the create route uses JS falsiness:
a body with lootboxId zero, or with an empty url, is rejected as missing
required fields with the database untouched, while a body whose four
checked fields are truthy passes the check even with rarityColors absent
and is delegated to createOffchainLootboxStats, which performs the
ownership lookup and the insert. -/
theorem C10_falsiness_required_fields (p : Platform) (req : Request) (db : DB)
    (b : CreateBody) (hpath : req.path = "/api/private/lootbox-stats/create")
    (hb : req.body = some b) :
    (b.lootboxId = 0 →
       handleRoute p req db = some ⟨⟨400, .err "Missing required fields"⟩, db, false⟩)
  ∧ (b.url = "" →
       handleRoute p req db = some ⟨⟨400, .err "Missing required fields"⟩, db, false⟩)
  ∧ (b.lootboxId ≠ 0 → b.url ≠ "" → b.creatorAddress ≠ "" → b.collectionName ≠ "" →
       handleRoute p req db = createOffchainLootboxStats p db b) := by
  refine ⟨fun h0 => ?_, fun h0 => ?_, fun h1 h2 h3 h4 => ?_⟩
  · rw [handleRoute, hpath]
    simp [lootboxStatsCreateRoute, hb, h0]
  · rw [handleRoute, hpath]
    simp [lootboxStatsCreateRoute, hb, h0]
  · rw [handleRoute, hpath]
    simp [lootboxStatsCreateRoute, hb, h1, h2, h3, h4]

/-- A create request whose body has lootboxId zero. -/
def reqCreateZero : Request :=
  { method := "POST", path := "/api/private/lootbox-stats/create", apiKey := some "k",
    params := fun _ => none, body := some ⟨0, "genesis", none, "0xcr", "Genesis"⟩ }

/-- A create request whose body omits rarityColors but has all four
checked fields truthy. -/
def reqCreateOk : Request :=
  { method := "POST", path := "/api/private/lootbox-stats/create", apiKey := some "k",
    params := fun _ => none, body := some ⟨5, "genesis", none, "0xcr", "Genesis"⟩ }

/-- C10, witness: falsy lootboxId is rejected; a body without rarityColors
delegates to the creation function. -/
theorem C10_falsiness_required_fields_witness :
    handleRoute p0 reqCreateZero DB.empty =
      some ⟨⟨400, .err "Missing required fields"⟩, DB.empty, false⟩ ∧
    handleRoute p0 reqCreateOk DB.empty =
      createOffchainLootboxStats p0 DB.empty ⟨5, "genesis", none, "0xcr", "Genesis"⟩ := by
  refine ⟨(C10_falsiness_required_fields p0 reqCreateZero DB.empty
      ⟨0, "genesis", none, "0xcr", "Genesis"⟩ rfl rfl).1 rfl, ?_⟩
  exact (C10_falsiness_required_fields p0 reqCreateOk DB.empty
      ⟨5, "genesis", none, "0xcr", "Genesis"⟩ rfl rfl).2.2
    (by decide) (by decide) (by decide) (by decide)

/-- C4, witness: the token-balances endpoint without an address filter on
the empty database, discharging the no-address hypothesis of the amended
theorem. -/
theorem C4_list_endpoints_limit_and_order_witness :
    addrTruthy (none : Option String) = false ∧
    (∃ rows, getTokenBalances DB.empty none false =
        ⟨⟨200, .tokenBalances rows rows.length⟩, DB.empty, true⟩ ∧
      List.Sorted (fun x y => y.lastUpdated ≤ x.lastUpdated) rows ∧ rows.length ≤ 20) := by
  obtain ⟨rows, heq, hs, hl⟩ :=
    (C4_list_endpoints_limit_and_order DB.empty none false "a").2.2.2
  exact ⟨rfl, rows, heq, hs, hl rfl⟩

/-- Every result of upsertOffChainAccount is either a success status or an
envelope whose top-level message key is the error key. -/
theorem upsert_envelope (db : DB) (data : UpsertData) (now : Nat) :
    (upsertOffChainAccount db data now).resp.status < 400 ∨
    (upsertOffChainAccount db data now).resp.body.topKeyIsError = true := by
  by_cases h1 : data.walletAddress = ""
  · right
    simp [upsertOffChainAccount, h1, Body.topKeyIsError]
  · left
    rw [upsertOffChainAccount, if_neg h1]
    rcases hf : db.offchainAccounts.find?
        (fun r => r.walletAddress == data.walletAddress) with _ | r <;>
      simp [hf]

/-- Every response of createOffchainLootboxStats is a success, an envelope
with the error key, or the conflict response with the message key. -/
theorem create_envelope (p : Platform) (db : DB) (data : CreateBody) :
    ∀ o, createOffchainLootboxStats p db data = some o →
      o.resp.status < 400 ∨ o.resp.body.topKeyIsError = true ∨
      o.resp = ⟨409, .msg "Offchain stats already exist"⟩ := by
  intro o h
  rw [createOffchainLootboxStats] at h
  rcases hf : db.lootboxes.find? (fun l =>
      l.id == data.lootboxId && l.creatorAddress == data.creatorAddress &&
      l.collectionName == data.collectionName) with _ | l
  · rw [hf] at h
    obtain rfl := Option.some.inj h
    right; left; rfl
  · rw [hf] at h
    rcases hs : db.offchainStats.find? (fun s => s.lootboxId == data.lootboxId) with _ | s
    · rw [hs] at h
      rcases hg : generateUniqueUrl (fun u => db.offchainStats.any (fun s => s.url == u))
          p.suffixes data.url with _ | u
      · rw [hg] at h; cases h
      · rw [hg] at h
        obtain rfl := Option.some.inj h
        left; simp
    · rw [hs] at h
      obtain rfl := Option.some.inj h
      right; right; rfl

/-- Every response of the account-upsert route is a success or an envelope
with the error key. -/
theorem accountUpsertRoute_envelope (p : Platform) (req : Request) (db : DB) :
    ∀ o, accountUpsertRoute p req db = some o →
      o.resp.status < 400 ∨ o.resp.body.topKeyIsError = true := by
  intro o h
  simp only [accountUpsertRoute] at h
  split at h
  · obtain rfl := Option.some.inj h; right; rfl
  · split at h
    · obtain rfl := Option.some.inj h; right; rfl
    · split at h
      · obtain rfl := Option.some.inj h; right; rfl
      · split at h
        · obtain rfl := Option.some.inj h; right; rfl
        · split at h
          · split at h
            · obtain rfl := Option.some.inj h; right; rfl
            · obtain rfl := Option.some.inj h
              exact upsert_envelope db _ _
          · obtain rfl := Option.some.inj h
            exact upsert_envelope db _ _

/-- Every response of the create route is a success, an envelope with the
error key, or the conflict response. -/
theorem createRoute_envelope (p : Platform) (req : Request) (db : DB) :
    ∀ o, lootboxStatsCreateRoute p req db = some o →
      o.resp.status < 400 ∨ o.resp.body.topKeyIsError = true ∨
      o.resp = ⟨409, .msg "Offchain stats already exist"⟩ := by
  intro o h
  rcases hb : req.body with _ | b
  · simp only [lootboxStatsCreateRoute, hb] at h
    obtain rfl := Option.some.inj h
    right; left; rfl
  · simp only [lootboxStatsCreateRoute, hb] at h
    split at h
    · obtain rfl := Option.some.inj h
      right; left; rfl
    · exact create_envelope p db b o h

/-- Every response of handleRoute is a success, an envelope with the error
key, or the conflict response of the create route. -/
theorem handleRoute_envelope (p : Platform) (req : Request) (db : DB) :
    ∀ o, handleRoute p req db = some o →
      o.resp.status < 400 ∨ o.resp.body.topKeyIsError = true ∨
      o.resp = ⟨409, .msg "Offchain stats already exist"⟩ := by
  intro o h
  rw [handleRoute] at h
  split at h
  · obtain rfl := Option.some.inj h; left; simp [getAccounts]
  · split at h
    · obtain rfl := Option.some.inj h; right; left; rfl
    · obtain rfl := Option.some.inj h; left; simp [getAccountBalances]
  · split at h
    · obtain rfl := Option.some.inj h; right; left; rfl
    · obtain rfl := Option.some.inj h; left; simp [getLootboxByCreatorAndCollection]
  · obtain rfl := Option.some.inj h; left; simp [getTokenTransactions]
  · obtain rfl := Option.some.inj h; left; simp [getTokenBalances]
  · rcases (accountUpsertRoute_envelope p req db o h) with hs | he
    · left; exact hs
    · right; left; exact he
  · exact createRoute_envelope p req db o h
  · obtain rfl := Option.some.inj h; right; left; rfl

/-- C8 (amended): every modelled error response (status at least 400)
carries its message under the top-level error key, with the single
exception of the create-offchain-stats conflict response, which is a 409
whose top-level key is message. -/
theorem C8_error_envelope (p : Platform) (keys : List String) (req : Request) (db : DB) :
    ∀ out, fetchService p keys req db = some out → 400 ≤ out.resp.status →
      out.resp.body.topKeyIsError = true ∨
      out.resp = ⟨409, .msg "Offchain stats already exist"⟩ := by
  intro out h he
  rw [fetchService] at h
  split at h
  · obtain rfl := Option.some.inj h
    exact absurd he (by simp)
  · split at h
    · obtain rfl := Option.some.inj h
      left; rfl
    · obtain ⟨o, ho, rfl⟩ := Option.map_eq_some'.mp h
      rcases handleRoute_envelope p req db o ho with hs | henv | hconf
      · exact absurd he (by simp; omega)
      · left; exact henv
      · right; exact hconf

/-- The duplicate creation request of the counterexample run. -/
def reqC : Request :=
  { method := "POST", path := "/api/private/lootbox-stats/create", apiKey := some "k",
    params := fun _ => none, body := some ⟨5, "genesis", none, "0xcr", "Genesis"⟩ }

/-- C8, counterexample: the conflict response of the create route is an
error-status response (409) whose top-level key is message, not error, so
the claimed uniform error envelope fails. -/
theorem C8_cex_conflict_uses_message_key :
    fetchService p0 ["k"] reqC dbC =
      some ⟨⟨409, .msg "Offchain stats already exist"⟩, dbC, true, true⟩ ∧
    (Body.msg "Offchain stats already exist").topKeyIsError = false ∧
    400 ≤ 409 := by decide

/-- A GET request for an unknown path. -/
def req404 : Request :=
  { method := "GET", path := "/api/nope", apiKey := none,
    params := fun _ => none, body := none }

/-- C8, witness: the amended theorem applied to the concrete 404 response
of the default route. -/
theorem C8_error_envelope_witness :
    (Body.err "Not found").topKeyIsError = true ∨
    (⟨404, .err "Not found"⟩ : Response) = ⟨409, .msg "Offchain stats already exist"⟩ :=
  C8_error_envelope p0 [] req404 DB.empty
    ⟨⟨404, .err "Not found"⟩, DB.empty, true, false⟩ (by decide) (by decide)

/-- The failing upsert request of the C1 run: a valid wallet address and a
well-formed email. -/
def reqUpsertEmail : Request :=
  { method := "GET", path := "/api/private/account/upsert", apiKey := some "k",
    params := fun n => if n = "walletAddress" then some "0xabc"
      else if n = "email" then some "a@b.com" else none,
    body := none }

/-- C1, bug evaluation: the account-upsert endpoint rejects every call
that carries a non-empty email with 400 Invalid email format before any
SQL runs (the guard that was meant to validate the email format fires on
every provided email), so the claimed two-call last-write-wins scenario
never reaches the database; the underlying SQL upsert itself, evaluated
directly, does behave as the claim states: after two upserts for the same
wallet with different emails there is exactly one row, it carries the
second email, and the row count is unchanged between the calls. -/
theorem C1_email_guard_breaks_upsert :
    fetchService p0 ["k"] reqUpsertEmail DB.empty =
      some ⟨⟨400, .err "Invalid email format"⟩, DB.empty, true, false⟩ ∧
    ((upsertOffChainAccount DB.empty ⟨"0xabc", some "a@b.com", none, none, 5⟩ 5).db.offchainAccounts.length = 1 ∧
     (upsertOffChainAccount
        (upsertOffChainAccount DB.empty ⟨"0xabc", some "a@b.com", none, none, 5⟩ 5).db
        ⟨"0xabc", some "b@b.com", none, none, 6⟩ 6).db.offchainAccounts.length = 1 ∧
     (upsertOffChainAccount
        (upsertOffChainAccount DB.empty ⟨"0xabc", some "a@b.com", none, none, 5⟩ 5).db
        ⟨"0xabc", some "b@b.com", none, none, 6⟩ 6).db.offchainAccounts.map
          (fun r => r.email) = [some "b@b.com"]) := by decide

end Crystara
